import Mathlib

/-!
Verification of the rtc-ctl DS1302 time-of-year clock utility
(src/rtc-ctl/rtc-ctl.c) against its natural-language specification.

The C source is shallowly embedded: pure numeric conversions become Lean
functions over `Nat`; the `long double` calibration arithmetic is embedded
over `ℚ` (exact rationals standing for the real-valued formulas the spec
states); fallible operations return `Except` or pair their outcome with an
explicit error value; the filesystem touched by the calibration store is an
explicit record threaded through the functions.
-/

namespace RtcCtl

/-- Error taxonomy of the spec (section 7). -/
inductive RtcError
  | NoDeviceDetected
  | DeviceHalted
  | DeviceNotRunning
  | OutOfRange
  | CalibrationTooYoung
  | TimeConversionOverflow
  | PersistenceIOError
  | ProtocolMisuse
deriving DecidableEq, Repr

/-- `BCD` (rtc-ctl.c lines 119-124): 2-digit packed BCD from binary,
`((n / 10) << 4) | (n % 10)`. -/
def BCD (n : ℕ) : ℕ := ((n / 10) <<< 4) ||| (n % 10)

/-- `BIN` (rtc-ctl.c lines 130-135): binary from 2-digit packed BCD,
`(((bcd >> 4) & 0x0f) * 10) + (bcd & 0x0f)`. -/
def BIN (bcd : ℕ) : ℕ := (((bcd >>> 4) &&& 0x0f) * 10) + (bcd &&& 0x0f)

/-- `OFFSET` (rtc-ctl.c line 142): offset of a register address from the
clock base, `(((reg) - TOY_SEC) >> 1) & 0x3F` with `TOY_SEC = 0x80`. -/
def OFFSET (reg : ℕ) : ℕ := ((reg - 0x80) >>> 1) &&& 0x3F

/-- Number of clock registers in a burst (rtc-ctl.c line 169). -/
def TOY_CLK_REGS : ℕ := 1 + OFFSET 0x8E - OFFSET 0x80

/-- Number of RAM registers (rtc-ctl.c line 227): `1 + OFFSET(TOY_RAM_END) -
OFFSET(TOY_RAM_BASE)` with `TOY_RAM_END = 0xFC`, `TOY_RAM_BASE = 0xC0`. -/
def TOY_RAM_REGS : ℕ := 1 + OFFSET 0xFC - OFFSET 0xC0

/-- Maximum number of stabilization reads (rtc-ctl.c line 238). -/
def TOY_MAX_READS : ℕ := 30000

/-! ## Hour field codec

`decodeTOY` (rtc-ctl.c lines 1414-1425) decodes the hour register byte;
`setTOY` (lines 1184-1190) encodes a 0-23 hour into the register byte,
either in 12-hour mode (`TOY_M_12HR = 0x80`, `TOY_M_PM = 0x20`) or in
24-hour mode. -/

/-- Hour-register decoding from `decodeTOY` (rtc-ctl.c lines 1414-1425). -/
def decodeHour (hrreg : ℕ) : ℕ :=
  if hrreg &&& 0x80 ≠ 0 then
    let h := BIN (hrreg &&& 0x1F)
    if hrreg &&& 0x20 ≠ 0 then
      if h ≠ 12 then h + 12 else h
    else
      if h = 12 then 0 else h
  else
    BIN (hrreg &&& 0x3F)

/-- 12-hour-mode hour-register encoding from `setTOY` (rtc-ctl.c lines
1184-1188). -/
def encodeHour12 (h : ℕ) : ℕ :=
  if h = 0 then 0x80 ||| BCD 12
  else if h = 12 then 0x80 ||| 0x20 ||| BCD 12
  else if h > 12 then 0x80 ||| 0x20 ||| BCD (h - 12)
  else 0x80 ||| BCD h

/-- 24-hour-mode hour-register encoding from `setTOY` (rtc-ctl.c line
1190). -/
def encodeHour24 (h : ℕ) : ℕ := BCD h

/-- A valid 12-hour-mode hour register byte: 12-hour flag set, PM bit as
given, BCD hour value 1-12. -/
def mk12hReg (h : ℕ) (pm : Bool) : ℕ :=
  0x80 ||| (if pm then 0x20 else 0) ||| BCD h

/-! ## Calibration record and drift correction -/

/-- `struct calib` (rtc-ctl.c lines 259-263).  The C `long double` fields
are embedded as exact rationals. -/
structure Calib where
  lastset : ℚ
  driftrate : ℚ
  valid : Bool
deriving DecidableEq, Repr

/-- C truncation of a `long double` to the integral `time_t`: rounding
toward zero. -/
def truncQ (q : ℚ) : ℤ := if 0 ≤ q then ⌊q⌋ else -⌊-q⌋

/-- Drift correction applied by `readUpdate` (rtc-ctl.c lines 1274-1316):
with a valid calibration and a nonzero drift rate, stretch (rate < 0) or
shrink (rate > 0) the elapsed chip time, add `0.5` and truncate to a
`time_t`; otherwise the decoded chip time is returned unchanged. -/
def applyCorrection (c : Calib) (toytime : ℤ) : ℤ :=
  if c.valid then
    if c.driftrate ≠ 0 then
      let elapsed : ℚ := (toytime : ℚ) - c.lastset
      if c.driftrate < 0 then
        truncQ (c.lastset + elapsed * (1 + |c.driftrate|) + 1/2)
      else
        truncQ (c.lastset + elapsed / (1 + c.driftrate) + 1/2)
    else toytime
  else toytime

/-- The corrected time as the specification states it (section 4.4 step 3),
before rounding: `elapsed = chipTime - lastSetEpoch`; for `driftRate < 0`,
`lastSetEpoch + elapsed * (1 + |driftRate|)`; for `driftRate ≥ 0`,
`lastSetEpoch + elapsed / (1 + driftRate)`.  Stated from the spec's words,
for comparison with `applyCorrection` (which is stated from the source). -/
def specCorrectedTime (c : Calib) (toytime : ℤ) : ℚ :=
  let elapsed : ℚ := (toytime : ℚ) - c.lastset
  if c.driftrate < 0 then c.lastset + elapsed * (1 + |c.driftrate|)
  else c.lastset + elapsed / (1 + c.driftrate)

/-! ## Setting the clock: young-calibration rejection and drift refit

`setTOY` (rtc-ctl.c lines 1065-1211).  The host clock readings, the
requested time and the chip observations made during the drift refit are
inputs gathered in `SetEnv`; the function returns either the error that
aborts the operation or the calibration record that is subsequently
persisted (`calib.valid = 1; writeCalib(&calib, &etime)`). -/

structure SetEnv where
  /-- `force` command-line flag. -/
  force : Bool
  /-- `stime.tv_sec`: whole seconds of the host clock captured at entry. -/
  stimeSec : ℤ
  /-- `newt = timegm(newtime)`: the requested epoch time to set. -/
  newt : ℤ
  /-- `calrundays`: configured minimum calibration run, in days. -/
  calrundays : ℕ
  /-- Month-register must-be-zero bits nonzero on the refit read
  (`No TOY detected`). -/
  noDevice : Bool
  /-- Halt bit set on the refit read (refit silently skipped). -/
  halted : Bool
  /-- The stabilization loop saw the seconds register change within
  `TOY_MAX_READS` tries (`try < TOY_MAX_READS`). -/
  stabOk : Bool
  /-- `toytime = decodeTOY(clkregs)`: chip time decoded from the
  stabilized read. -/
  toytime : ℤ
  /-- `end`: host clock captured right after the stabilized read. -/
  endT : ℚ
  /-- `etime`: host clock captured just before writing the chip, stored
  as the new `lastset`. -/
  etime : ℚ
deriving DecidableEq, Repr

/-- Calibration decision of `setTOY` (rtc-ctl.c lines 1088-1152 and
1163-1208): reject a still-young valid calibration unless forced
(lines 1090-1098, using `stime.tv_sec`); refit the drift rate only when
`newt > lastset + calrundays*86400` and the chip is present, running and
stabilizes (lines 1104-1152); otherwise carry the prior rate forward; the
record written out has `lastset = etime` and `valid = true`. -/
def setTOYcalib (c : Calib) (e : SetEnv) : Except RtcError Calib :=
  if c.valid ∧ e.force = false ∧
      ((e.stimeSec : ℚ) - c.lastset) < ((e.calrundays * 24 * 60 * 60 : ℕ) : ℚ) then
    .error .CalibrationTooYoung
  else if c.valid ∧ ((e.newt : ℚ) > c.lastset + ((e.calrundays * 24 * 60 * 60 : ℕ) : ℚ)) then
    if e.noDevice then .error .NoDeviceDetected
    else
      let dr := if e.halted = false ∧ e.stabOk = true then
          ((e.toytime : ℚ) - e.endT) / (e.endT - c.lastset)
        else c.driftrate
      .ok { lastset := e.etime, driftrate := dr, valid := true }
  else
    .ok { lastset := e.etime, driftrate := c.driftrate, valid := true }

/-! ## Calibration store: persistence model

`writeCalib` (rtc-ctl.c lines 1490-1610) works on three sibling paths: the
target calibration file, `<target>.bak` and `<target>.tmp`.  The
filesystem is modelled as the contents of these three paths; each C stdio
or system call that can fail gets an error-injection flag. -/

/-- Contents of a file in the store model: arbitrary pre-existing bytes, a
truncated copy left behind by a failed write, or the formatted
calibration record (`fprintf` at rtc-ctl.c lines 1578-1583, which writes
`lastset`, `driftrate` and the `UTC` marker; the decimal rendering is kept
at the data level). -/
inductive FileContent
  | bytes (s : List ℕ)
  | truncated (s : List ℕ)
  | record (lastset driftrate ts : ℚ)
deriving DecidableEq, Repr

/-- A stored file: content plus access/modification times. -/
structure FileData where
  content : FileContent
  atime : ℤ
  mtime : ℤ
deriving DecidableEq, Repr

/-- The three sibling paths `writeCalib` touches. -/
structure CalibFS where
  target : Option FileData
  backup : Option FileData
  tmp : Option FileData
deriving DecidableEq, Repr

/-- Error injection for the fallible calls inside `writeCalib`, in source
order: `fstat`, `fopen(.bak, "w")`, the `fputc` copy loop, `fclose` of the
backup, `fopen(.tmp, "w")`, `fclose` of the temp file, `rename`. -/
structure StoreErrs where
  fstatFail : Bool
  backupOpenFail : Bool
  backupWriteFail : Bool
  backupCloseFail : Bool
  tmpOpenFail : Bool
  tmpCloseFail : Bool
  renameFail : Bool
deriving DecidableEq, Repr

/-- All calls succeed. -/
def noStoreErrs : StoreErrs := ⟨false, false, false, false, false, false, false⟩

/-- How `writeCalib` returns to its caller: a normal return, or a process
exit with the given `sysexits.h` code. -/
inductive WResult
  | ok
  | exited (code : ℕ)
deriving DecidableEq, Repr

def EX_OSERR : ℕ := 71
def EX_IOERR : ℕ := 74

/-- Second phase of `writeCalib` (rtc-ctl.c lines 1567-1596): write the
record to `<target>.tmp` and rename it over the target.  Each failure in
this phase is only reported with `perror` and the function returns
normally (`ret` stays `EX_OK`). -/
def writePhase (c : Calib) (ts : ℚ) (now : ℤ) (fs : CalibFS) (er : StoreErrs) :
    CalibFS × WResult :=
  if er.tmpOpenFail then (fs, .ok)
  else
    let tmpf : FileData := ⟨FileContent.record c.lastset c.driftrate ts, now, now⟩
    if er.tmpCloseFail then ({ fs with tmp := some tmpf }, .ok)
    else if er.renameFail then ({ fs with tmp := some tmpf }, .ok)
    else ({ fs with target := some tmpf, tmp := none }, .ok)

/-- `writeCalib` (rtc-ctl.c lines 1490-1610).  Nothing is done without a
configured path or with an invalid record (line 1497).  If the target
exists it is first copied to `<target>.bak` with its timestamps restored
by `utime`; a failure in this backup phase sets `ret` to `EX_OSERR` or
`EX_IOERR` and exits.  The write/rename phase follows (`writePhase`). -/
def writeCalib (hasPath : Bool) (c : Calib) (ts : ℚ) (now : ℤ) (fs : CalibFS)
    (er : StoreErrs) : CalibFS × WResult :=
  if hasPath = false ∨ c.valid = false then (fs, .ok)
  else
    match fs.target with
    | some f =>
      if er.fstatFail then (fs, .exited EX_OSERR)
      else if er.backupOpenFail then (fs, .exited EX_IOERR)
      else if er.backupWriteFail then
        ({ fs with backup := some ⟨FileContent.truncated [], now, now⟩ }, .exited EX_IOERR)
      else if er.backupCloseFail then
        ({ fs with backup := some ⟨f.content, now, now⟩ }, .exited EX_IOERR)
      else
        writePhase c ts now { fs with backup := some ⟨f.content, f.atime, f.mtime⟩ } er
    | none => writePhase c ts now fs er

/-- `setTOY` followed by its persistence step: on a calibration error the
operation exits before any store access, leaving the filesystem untouched;
otherwise the produced record is written with `writeCalib`. -/
def setTOYrun (c : Calib) (e : SetEnv) (hasPath : Bool) (now : ℤ) (fs : CalibFS)
    (er : StoreErrs) : CalibFS × Option RtcError × WResult :=
  match setTOYcalib c e with
  | .error err => (fs, some err, .ok)
  | .ok c2 =>
    let (fs2, w) := writeCalib hasPath c2 e.etime now fs er
    (fs2, none, w)

/-! ## Calibration store: load model

`readCalib` (rtc-ctl.c lines 1448-1486) parses a three-line text record.
The file is modelled as `none` (missing or unopenable) or the list of
lines `fgets` returns, each still carrying its newline.  `strtold` is
modelled for plain decimal forms (optional sign, digits, optional
fractional part), the forms `writeCalib` itself produces. -/

/-- Accumulate leading decimal digits: value, number of digits consumed,
rest. -/
def digitsAux : List Char → ℕ → ℕ → ℕ × ℕ × List Char
  | [], acc, n => (acc, n, [])
  | ch :: cs, acc, n =>
    if ch.isDigit then digitsAux cs (acc * 10 + (ch.toNat - 48)) (n + 1)
    else (acc, n, ch :: cs)

/-- `strtold` model for decimal forms: returns the value (0 when nothing
converts, as `strtold` does), the unconsumed rest (`endptr`), and whether
any conversion happened (`endptr != nptr`). -/
def strtoldQ (s : List Char) : ℚ × List Char × Bool :=
  let s1 := s.dropWhile (fun ch => ch = ' ' ∨ ch = '\t')
  let sgn : Bool × List Char :=
    match s1 with
    | '-' :: r => (true, r)
    | '+' :: r => (false, r)
    | _ => (false, s1)
  let (ip, nInt, s3) := digitsAux sgn.2 0 0
  match s3 with
  | '.' :: r =>
    let (fp, nFrac, s4) := digitsAux r 0 0
    if nInt = 0 ∧ nFrac = 0 then (0, s, false)
    else
      let v : ℚ := (ip : ℚ) + (fp : ℚ) / ((10 : ℚ) ^ nFrac)
      ((if sgn.1 then -v else v), s4, true)
  | _ =>
    if nInt = 0 then (0, s, false)
    else ((if sgn.1 then -(ip : ℚ) else (ip : ℚ)), s3, true)

/-- The check `readCalib` applies after each `strtold`: conversion
happened and the value is followed by `" ("` (rtc-ctl.c lines 1468,
1475). -/
def numLineOk (l : List Char) : Bool :=
  let (_, rest, conv) := strtoldQ l
  conv && (match rest with
           | ' ' :: '(' :: _ => true
           | _ => false)

/-- `readCalib` (rtc-ctl.c lines 1448-1486).  The record starts zeroed
(`memset`); each parse step assigns its field before the validity checks,
so a failure part-way through returns with the already-parsed fields still
set; only reaching the final `UTC` line sets `valid`.  No failure is ever
reported to the caller. -/
def readCalib (file : Option (List (List Char))) : Calib :=
  match file with
  | none => ⟨0, 0, false⟩
  | some lines =>
    match lines with
    | [] => ⟨0, 0, false⟩
    | l1 :: rest1 =>
      let v1 := (strtoldQ l1).1
      if numLineOk l1 = false then ⟨v1, 0, false⟩
      else
        match rest1 with
        | [] => ⟨v1, 0, false⟩
        | l2 :: rest2 =>
          let v2 := (strtoldQ l2).1
          if numLineOk l2 = false then ⟨v1, v2, false⟩
          else
            match rest2 with
            | [] => ⟨v1, v2, false⟩
            | l3 :: _ =>
              if l3 = ['U', 'T', 'C', '\n'] then ⟨v1, v2, true⟩
              else ⟨v1, v2, false⟩

/-- The well-formedness the spec describes for the stored record (section
4.6): at least the three leading lines are present, the first two parse as
a decimal value followed by `" ("`, and the third is the literal `UTC`
marker line.  Stated from the spec's words, for comparison with
`readCalib`. -/
def wellFormedCalibFile : Option (List (List Char)) → Bool
  | none => false
  | some (l1 :: l2 :: l3 :: _) =>
    numLineOk l1 && numLineOk l2 && (l3 = ['U', 'T', 'C', '\n'] : Bool)
  | some _ => false

/-! ## Stabilized read

The loop of `readUpdate` (rtc-ctl.c lines 1247-1265):

    do {
        firstsec = BIN( clkregs[OFFSET(TOY_SEC)] & TOY_M_SEC );
        readTOY( TOY_CBURST, clkregs );
        if( firstsec != BIN( clkregs[OFFSET(TOY_SEC)] & TOY_M_SEC ) )
            break;
        readTOY( TOY_CBURST, clkregs );
    } while( toytime++ < TOY_MAX_READS );

The chip is modelled by the sequence of seconds-register bytes its
successive burst reads return.  The loop is embedded with explicit fuel
(any fuel larger than the iteration bound gives the loop's exact
behaviour, since the counter guard stops it first). -/

/-- One-to-one embedding of the do-while above.  `cur` is the seconds byte
currently in `clkregs`, `idx` the index of the next burst read, `cnt` the
counter (`toytime`).  Returns (number of seconds-comparisons performed,
final counter value, whether the loop ended by `break`). -/
def stabLoopAux (chipSec : ℕ → ℕ) : ℕ → ℕ → ℕ → ℕ → ℕ × ℕ × Bool
  | _, _, cnt, 0 => (0, cnt, false)
  | cur, idx, cnt, fuel + 1 =>
    let firstsec := BIN (cur &&& 0x7F)
    let r1 := chipSec idx
    if firstsec ≠ BIN (r1 &&& 0x7F) then (1, cnt, true)
    else
      let r2 := chipSec (idx + 1)
      if cnt < TOY_MAX_READS then
        let (n, fin, b) := stabLoopAux chipSec r2 (idx + 2) (cnt + 1) fuel
        (n + 1, fin, b)
      else (1, cnt + 1, false)

/-- The read path of `readUpdate` up to the running check (rtc-ctl.c lines
1232-1265): initial burst read, no-device and halt checks, the
stabilization loop, then `if (toytime >= TOY_MAX_READS)` fails with
"TOY does not seem to be running".  `mon0` is the month byte of the first
read.  Returns the number of seconds-comparisons performed and the
outcome. -/
def readUpdateStab (chipSec : ℕ → ℕ) (mon0 : ℕ) : ℕ × Except RtcError Unit :=
  if mon0 &&& 0xE0 ≠ 0 then (0, .error .NoDeviceDetected)
  else if chipSec 0 &&& 0x80 ≠ 0 then (0, .error .DeviceHalted)
  else
    let (n, fin, _) := stabLoopAux chipSec (chipSec 0) 1 0 (TOY_MAX_READS + 2)
    (n, if fin ≥ TOY_MAX_READS then .error .DeviceNotRunning else .ok ())

/-! ## Bit transport: burst length validation

`writeTOY` (rtc-ctl.c lines 1814-1922) and `readTOY` (lines 1926-2030).
The hardware side is modelled as the list of pin actions a call performs;
the RAM burst length check (`n <= 0 || n > TOY_RAM_REGS`) happens in the
argument-decoding switch, before the first pin action is generated. -/

inductive PinAct
  | ce (b : Bool)
  | ck (b : Bool)
  | io (b : Bool)
  | ioToInput
  | delayUs (n : ℕ)
deriving DecidableEq, Repr

/-- Shift one byte out, LSB first, with the per-bit clocking of
`writeTOY`'s data loop. -/
def byteBitsOut (b : ℕ) : List PinAct :=
  (List.range 8).flatMap fun i =>
    [PinAct.io (((b >>> i) &&& 1) == 1), .delayUs 2, .ck true, .delayUs 2,
     .ck false, .delayUs 2]

/-- Command-byte phase of a read: the last command bit leaves the clock
high so the data pin can be turned around first (rtc-ctl.c lines
1966-1986). -/
def cmdBitsRead (b : ℕ) : List PinAct :=
  (List.range 8).flatMap fun i =>
    [PinAct.io (((b >>> i) &&& 1) == 1), .delayUs 2, .ck true, .delayUs 2] ++
      (if i < 7 then [PinAct.ck false, .delayUs 2] else [])

/-- Per-byte clocking of the read data loop (rtc-ctl.c lines 1990-2007):
eight falling/rising clock edges while sampling the data pin. -/
def byteBitsIn : List PinAct :=
  (List.range 8).flatMap fun _ =>
    [PinAct.ck false, .delayUs 2, .ck true, .delayUs 2]

/-- `writeTOY` (rtc-ctl.c lines 1814-1922): decode the register argument
into a byte count (`TOY_CBURST` means all 8 clock registers; `TOY_RBURST`
takes an explicit length, rejected as an internal error when outside
`1..TOY_RAM_REGS`), then bit-bang the command byte and data bytes.
Returns the pin actions performed and the error, if any. -/
def writeTOY (reg : ℕ) (len : ℤ) (data : List ℕ) : List PinAct × Option RtcError :=
  let regLow := reg &&& 0xFF
  let n : ℤ := if regLow = 0xBE then 8 else if regLow = 0xFE then len else 1
  if regLow = 0xFE ∧ (len ≤ 0 ∨ len > (TOY_RAM_REGS : ℤ)) then
    ([], some .ProtocolMisuse)
  else
    ([PinAct.ck false, .ce true, .delayUs 4] ++ byteBitsOut regLow ++
       (data.take n.toNat).flatMap byteBitsOut ++
       [PinAct.io false, .ce false, .delayUs 4],
     none)

/-- `readTOY` (rtc-ctl.c lines 1926-2030): same argument decoding and RAM
burst length check as `writeTOY`, then the command byte is shifted out
with the read bit set, the data pin is switched to input, and the data
bytes are clocked in. -/
def readTOY (reg : ℕ) (len : ℤ) : List PinAct × Option RtcError :=
  let regLow := reg &&& 0xFF
  let n : ℤ := if regLow = 0xBE then 8 else if regLow = 0xFE then len else 1
  if regLow = 0xFE ∧ (len ≤ 0 ∨ len > (TOY_RAM_REGS : ℤ)) then
    ([], some .ProtocolMisuse)
  else
    ([PinAct.ck false, .ce true, .delayUs 4] ++ cmdBitsRead (regLow ||| 0x01) ++
       [PinAct.ioToInput, .delayUs 2] ++
       (List.range n.toNat).flatMap (fun _ => byteBitsIn) ++
       [PinAct.ck false, .ce false, .delayUs 4],
     none)

/-! # Theorems -/

/-- Helper: adding `0.5` and truncating toward zero rounds a nonnegative
rational to the nearest whole number. -/
theorem truncQ_add_half (q : ℚ) (h : 0 ≤ q) : truncQ (q + 1/2) = round q := by
  have h2 : (0 : ℚ) ≤ q + 1/2 := by linarith
  rw [truncQ, if_pos h2, round_eq]

/-- C7: for every `n` in `0..99`, converting to packed BCD and back is the
identity: `BIN (BCD n) = n`. -/
theorem bcd_bin_roundtrip : ∀ n, n < 100 → BIN (BCD n) = n := by decide

/-- Witness for `bcd_bin_roundtrip` at `n = 59`. -/
theorem bcd_bin_roundtrip_witness : 59 < 100 ∧ BIN (BCD 59) = 59 :=
  ⟨by decide, bcd_bin_roundtrip 59 (by decide)⟩

/-- C8: for every valid 12-hour sample (hour 1-12, either AM/PM bit),
decoding then re-encoding in 12-hour mode reproduces the same hour and
AM/PM bits, and for every absolute hour `k < 24`, decoding an encoding in
either mode reproduces `k`. -/
theorem hour_codec_roundtrip :
    ∀ h, h < 13 → ∀ k, k < 24 → ∀ pm : Bool, 1 ≤ h →
      encodeHour12 (decodeHour (mk12hReg h pm)) = mk12hReg h pm ∧
      decodeHour (encodeHour24 k) = k ∧
      decodeHour (encodeHour12 k) = k := by decide

/-- Witness for `hour_codec_roundtrip` at hour 7 PM and absolute hour 15. -/
theorem hour_codec_roundtrip_witness :
    encodeHour12 (decodeHour (mk12hReg 7 true)) = mk12hReg 7 true ∧
    decodeHour (encodeHour24 15) = 15 ∧
    decodeHour (encodeHour12 15) = 15 :=
  hour_codec_roundtrip 7 (by decide) 15 (by decide) true (by decide)

/-- C1: with a valid calibration and nonzero drift rate, `readUpdate`
computes exactly the specified corrected time — `lastSetEpoch + elapsed *
(1 + |driftRate|)` for negative rates, `lastSetEpoch + elapsed / (1 +
driftRate)` otherwise — rounded to the nearest whole second; with an
invalid record the chip time is returned unchanged.  (The rounding by
adding `0.5` and truncating agrees with round-to-nearest because the
corrected time is nonnegative.) -/
theorem applyCorrection_correct (c : Calib) (t : ℤ)
    (h0 : 0 ≤ specCorrectedTime c t) :
    (c.valid = true → c.driftrate ≠ 0 →
      applyCorrection c t = round (specCorrectedTime c t)) ∧
    (c.valid = false → applyCorrection c t = t) := by
  constructor
  · intro hv hnz
    by_cases hlt : c.driftrate < 0
    · have hs : specCorrectedTime c t =
          c.lastset + ((t : ℚ) - c.lastset) * (1 + |c.driftrate|) := by
        simp [specCorrectedTime, hlt]
      rw [hs] at h0 ⊢
      have ha : applyCorrection c t =
          truncQ (c.lastset + ((t : ℚ) - c.lastset) * (1 + |c.driftrate|) + 1/2) := by
        simp [applyCorrection, hv, hnz, hlt]
      rw [ha]
      exact truncQ_add_half _ h0
    · have hs : specCorrectedTime c t =
          c.lastset + ((t : ℚ) - c.lastset) / (1 + c.driftrate) := by
        simp [specCorrectedTime, hlt]
      rw [hs] at h0 ⊢
      have ha : applyCorrection c t =
          truncQ (c.lastset + ((t : ℚ) - c.lastset) / (1 + c.driftrate) + 1/2) := by
        simp [applyCorrection, hv, hnz, hlt]
      rw [ha]
      exact truncQ_add_half _ h0
  · intro hv
    simp [applyCorrection, hv]

/-- Witness for `applyCorrection_correct`: calibration
`{lastset = 0, driftrate = -1/1000}` and chip time 1000. -/
theorem applyCorrection_correct_witness :
    (0 : ℚ) ≤ specCorrectedTime ⟨0, -(1/1000), true⟩ 1000 ∧
    applyCorrection ⟨0, -(1/1000), true⟩ 1000 =
      round (specCorrectedTime ⟨0, -(1/1000), true⟩ 1000) := by
  have h0 : (0 : ℚ) ≤ specCorrectedTime ⟨0, -(1/1000), true⟩ 1000 := by
    unfold specCorrectedTime
    norm_num [abs_of_nonpos]
  exact ⟨h0, (applyCorrection_correct _ _ h0).1 rfl (by norm_num)⟩

/-- C2 counterexample: at an elapsed time exactly equal to the configured
minimum (lastset 0, `newt = stime = 12 * 86400` with the default 12-day
minimum), the claim demands the refit formula, but `setTOY`'s condition is
the strict `newt > lastset + calrundays*86400`, so the prior rate `1/100`
is carried forward instead of the formula value `5/1036800`. -/
theorem setTOY_boundary_counterexample :
    setTOYcalib ⟨0, 1/100, true⟩
        ⟨false, 1036800, 1036800, 12, false, false, true, 1036805, 1036800, 1036801⟩ =
      .ok ⟨1036801, 1/100, true⟩ ∧
    ((1036800 : ℚ) - 0 = ((12 * 24 * 60 * 60 : ℕ) : ℚ)) ∧
    (1/100 : ℚ) ≠ ((1036805 : ℚ) - 1036800) / (1036800 - 0) := by
  refine ⟨?_, by norm_num, by norm_num⟩
  unfold setTOYcalib
  norm_num

/-- C2 (amended): when a valid prior calibration passes the young-check
(forced, or old enough) and the requested time exceeds `lastSetEpoch` by
strictly more than the configured minimum days, with the chip present,
running and stabilizing, the new rate is `(reportedTime - hostTimestamp) /
(hostTimestamp - priorLastSetEpoch)`; otherwise the prior rate is carried
forward unchanged, never reset to zero. -/
theorem setTOY_fitDrift (c : Calib) (e : SetEnv)
    (hv : c.valid = true)
    (hyoung : e.force = true ∨
      ¬(((e.stimeSec : ℚ) - c.lastset) < ((e.calrundays * 24 * 60 * 60 : ℕ) : ℚ))) :
    (((e.newt : ℚ) > c.lastset + ((e.calrundays * 24 * 60 * 60 : ℕ) : ℚ)) →
       e.noDevice = false → e.halted = false → e.stabOk = true →
       setTOYcalib c e =
         .ok ⟨e.etime, ((e.toytime : ℚ) - e.endT) / (e.endT - c.lastset), true⟩) ∧
    (¬((e.newt : ℚ) > c.lastset + ((e.calrundays * 24 * 60 * 60 : ℕ) : ℚ)) →
       setTOYcalib c e = .ok ⟨e.etime, c.driftrate, true⟩) := by
  have hng : ¬(c.valid ∧ e.force = false ∧
      ((e.stimeSec : ℚ) - c.lastset) < ((e.calrundays * 24 * 60 * 60 : ℕ) : ℚ)) := by
    rcases hyoung with h | h
    · rintro ⟨-, hf, -⟩
      rw [h] at hf
      exact Bool.noConfusion hf
    · rintro ⟨-, -, hlt⟩
      exact h hlt
  constructor
  · intro hgt hnd hh hs
    rw [setTOYcalib, if_neg hng, if_pos ⟨by rw [hv], hgt⟩, if_neg (by rw [hnd]; exact Bool.noConfusion)]
    simp [hh, hs]
  · intro hle
    rw [setTOYcalib, if_neg hng, if_neg (fun hc => hle hc.2)]

/-- Witness for `setTOY_fitDrift`: a 0-epoch calibration refit at time
2000000 (beyond the 12-day minimum) with the chip reading 5 seconds
ahead. -/
theorem setTOY_fitDrift_witness :
    setTOYcalib ⟨0, 3, true⟩
        ⟨false, 2000000, 2000000, 12, false, false, true, 2000005, 2000000, 2000001⟩ =
      .ok ⟨2000001, 1/400000, true⟩ := by
  have h := (setTOY_fitDrift ⟨0, 3, true⟩
      ⟨false, 2000000, 2000000, 12, false, false, true, 2000005, 2000000, 2000001⟩
      rfl (Or.inr (by norm_num))).1 (by norm_num) rfl rfl rfl
  rw [h]
  norm_num

/-- C3: setting the clock with a valid prior calibration younger than the
configured minimum, without force, is a hard failure
(`CalibrationTooYoung`, `exit(EX_UNAVAILABLE)` before any store access)
and the stored calibration file is untouched. -/
theorem setTOY_rejects_young (c : Calib) (e : SetEnv) (hasPath : Bool) (now : ℤ)
    (fs : CalibFS) (er : StoreErrs)
    (hv : c.valid = true) (hf : e.force = false)
    (hy : ((e.stimeSec : ℚ) - c.lastset) < ((e.calrundays * 24 * 60 * 60 : ℕ) : ℚ)) :
    setTOYcalib c e = .error .CalibrationTooYoung ∧
    setTOYrun c e hasPath now fs er = (fs, some .CalibrationTooYoung, .ok) := by
  have h1 : setTOYcalib c e = .error .CalibrationTooYoung := by
    rw [setTOYcalib, if_pos ⟨by rw [hv], hf, hy⟩]
  refine ⟨h1, ?_⟩
  rw [setTOYrun, h1]

/-- Witness for `setTOY_rejects_young`: a valid calibration only 100
seconds old, no force, default 12-day minimum; any filesystem contents
stay as they are. -/
theorem setTOY_rejects_young_witness :
    setTOYrun ⟨0, 2, true⟩ ⟨false, 100, 100, 12, false, false, true, 100, 50, 101⟩
        true 7 ⟨some ⟨FileContent.bytes [9], 1, 2⟩, none, none⟩ noStoreErrs =
      (⟨some ⟨FileContent.bytes [9], 1, 2⟩, none, none⟩, some .CalibrationTooYoung, .ok) :=
  (setTOY_rejects_young ⟨0, 2, true⟩
      ⟨false, 100, 100, 12, false, false, true, 100, 50, 101⟩
      true 7 ⟨some ⟨FileContent.bytes [9], 1, 2⟩, none, none⟩ noStoreErrs
      rfl rfl (by norm_num)).2

/-- C4 counterexample: with an existing target file and a failing
`rename`, `writeCalib` only prints with `perror` and returns normally
(`WResult.ok`, not an `exited` failure status), leaving the new record
stranded at the `.tmp` path — the claim that any I/O error during the
write/rename step propagates to the caller is false. -/
theorem writeCalib_swallows_rename_failure :
    writeCalib true ⟨5, 1/2, true⟩ 10 99 ⟨some ⟨FileContent.bytes [1, 2], 3, 4⟩, none, none⟩
        ⟨false, false, false, false, false, false, true⟩ =
      (⟨some ⟨FileContent.bytes [1, 2], 3, 4⟩, some ⟨FileContent.bytes [1, 2], 3, 4⟩,
        some ⟨FileContent.record 5 (1/2) 10, 99, 99⟩⟩, .ok) := by rfl

/-- C4 (amended): storing a valid record first copies the existing target
to the sibling backup path with its timestamps preserved, then writes the
record to a temporary sibling and atomically renames it over the target;
any I/O error in the backup step exits with a nonzero status, while I/O
errors in the write/rename step are only reported to stderr — the
function returns normally and the target keeps the previous record. -/
theorem writeCalib_store (c : Calib) (ts : ℚ) (now : ℤ) (fs : CalibFS)
    (er : StoreErrs) (f : FileData) (hv : c.valid = true) :
    (er = noStoreErrs → fs.target = some f →
      writeCalib true c ts now fs er =
        (⟨some ⟨FileContent.record c.lastset c.driftrate ts, now, now⟩,
          some ⟨f.content, f.atime, f.mtime⟩, none⟩, .ok)) ∧
    (fs.target = some f → er.fstatFail = true →
      writeCalib true c ts now fs er = (fs, .exited EX_OSERR)) ∧
    (fs.target = some f → er.fstatFail = false → er.backupOpenFail = true →
      writeCalib true c ts now fs er = (fs, .exited EX_IOERR)) ∧
    (er.fstatFail = false → er.backupOpenFail = false → er.backupWriteFail = false →
     er.backupCloseFail = false → er.tmpOpenFail = false → er.tmpCloseFail = false →
     er.renameFail = true →
      (writeCalib true c ts now fs er).2 = .ok ∧
      (writeCalib true c ts now fs er).1.target = fs.target) := by
  refine ⟨?_, ?_, ?_, ?_⟩
  · intro her htg
    subst her
    simp [writeCalib, writePhase, hv, htg, noStoreErrs]
  · intro htg hfs
    simp [writeCalib, hv, htg, hfs]
  · intro htg hfs hbo
    simp [writeCalib, hv, htg, hfs, hbo]
  · intro h1 h2 h3 h4 h5 h6 h7
    cases htg : fs.target with
    | none => simp [writeCalib, writePhase, hv, htg, h1, h2, h3, h4, h5, h6, h7]
    | some g => simp [writeCalib, writePhase, hv, htg, h1, h2, h3, h4, h5, h6, h7]

/-- Witness for `writeCalib_store`: the error-free path with an existing
target file. -/
theorem writeCalib_store_witness :
    writeCalib true ⟨5, 1/2, true⟩ 10 99
        ⟨some ⟨FileContent.bytes [1, 2], 3, 4⟩, none, none⟩ noStoreErrs =
      (⟨some ⟨FileContent.record 5 (1/2) 10, 99, 99⟩,
        some ⟨FileContent.bytes [1, 2], 3, 4⟩, none⟩, .ok) :=
  (writeCalib_store ⟨5, 1/2, true⟩ 10 99
      ⟨some ⟨FileContent.bytes [1, 2], 3, 4⟩, none, none⟩ noStoreErrs
      ⟨FileContent.bytes [1, 2], 3, 4⟩ rfl).1 rfl rfl

/-- C10: with an invalid record or no configured calibration path,
`writeCalib` is a no-op on the filesystem: nothing is created, backed up,
renamed or modified, and the previously stored file survives unchanged. -/
theorem writeCalib_noop (hasPath : Bool) (c : Calib) (ts : ℚ) (now : ℤ)
    (fs : CalibFS) (er : StoreErrs)
    (h : hasPath = false ∨ c.valid = false) :
    writeCalib hasPath c ts now fs er = (fs, .ok) := by
  rw [writeCalib, if_pos h]

/-- Witness for `writeCalib_noop`: an invalid record with a configured
path leaves a populated filesystem exactly as it was. -/
theorem writeCalib_noop_witness :
    writeCalib true ⟨7, 8, false⟩ 1 2
        ⟨some ⟨FileContent.bytes [3], 4, 5⟩, none, none⟩ noStoreErrs =
      (⟨some ⟨FileContent.bytes [3], 4, 5⟩, none, none⟩, .ok) :=
  writeCalib_noop true ⟨7, 8, false⟩ 1 2
    ⟨some ⟨FileContent.bytes [3], 4, 5⟩, none, none⟩ noStoreErrs (Or.inr rfl)

/-- C5 counterexample: the file `"5 (x)\n" / "bad\n" / "UTC\n"` does not
parse (second line has no number), yet `readCalib` returns
`lastSetEpoch = 5`, not 0 — the field parsed before the failure is kept.
And a four-line file whose first three lines are well-formed is not a
three-line record, yet yields `valid = true`. -/
theorem readCalib_counterexample :
    readCalib (some [['5', ' ', '(', 'x', ')', '\n'], ['b', 'a', 'd', '\n'],
        ['U', 'T', 'C', '\n']]) = ⟨5, 0, false⟩ ∧
    (5 : ℚ) ≠ 0 ∧
    (readCalib (some [['5', ' ', '(', '\n'], ['2', ' ', '(', '\n'],
        ['U', 'T', 'C', '\n'], ['z', '\n']])).valid = true := by
  refine ⟨by rfl, by norm_num, by rfl⟩

/-- C5 (amended): `readCalib` never signals an error; a missing file yields
the all-zero invalid record; `valid = true` exactly when the first three
lines form the well-formed record (a decimal followed by `" ("` twice,
then the literal `UTC` line) — on a parse failure `valid` is `false` and
the fields parsed before the failure keep their parsed values, the rest
staying zero. -/
theorem readCalib_correct (f : Option (List (List Char))) :
    ((readCalib f).valid = true ↔ wellFormedCalibFile f = true) ∧
    (f = none → readCalib f = ⟨0, 0, false⟩) := by
  constructor
  · cases f with
    | none => simp [readCalib, wellFormedCalibFile]
    | some ls =>
      match ls with
      | [] => simp [readCalib, wellFormedCalibFile]
      | [l1] =>
        cases hn1 : numLineOk l1 <;>
          simp [readCalib, wellFormedCalibFile, hn1]
      | [l1, l2] =>
        cases hn1 : numLineOk l1 <;> cases hn2 : numLineOk l2 <;>
          simp [readCalib, wellFormedCalibFile, hn1, hn2]
      | l1 :: l2 :: l3 :: rest =>
        cases hn1 : numLineOk l1 <;> cases hn2 : numLineOk l2 <;>
          by_cases h3 : l3 = ['U', 'T', 'C', '\n'] <;>
            simp [readCalib, wellFormedCalibFile, hn1, hn2, h3]
  · rintro rfl
    rfl

/-- Witness for `readCalib_correct`: a missing file yields the all-zero
invalid record. -/
theorem readCalib_correct_witness : readCalib none = ⟨0, 0, false⟩ :=
  (readCalib_correct none).2 rfl

/-- Helper: against a chip whose seconds byte never changes, the
stabilization loop never breaks; with enough fuel it performs exactly
`TOY_MAX_READS + 1 - cnt` comparisons (the post-increment do-while guard
admits counter values up to and including `TOY_MAX_READS`), leaving the
counter at `TOY_MAX_READS + 1`. -/
theorem stabLoopAux_const (b : ℕ) :
    ∀ (fuel cnt idx : ℕ), TOY_MAX_READS + 1 - cnt ≤ fuel → cnt ≤ TOY_MAX_READS →
      stabLoopAux (fun _ => b) b idx cnt fuel =
        (TOY_MAX_READS + 1 - cnt, TOY_MAX_READS + 1, false) := by
  simp only [TOY_MAX_READS]
  intro fuel
  induction fuel with
  | zero =>
    intro cnt idx hf hc
    omega
  | succ k ih =>
    intro cnt idx hf hc
    simp only [stabLoopAux]
    rw [if_neg (by simp)]
    by_cases hlt : cnt < TOY_MAX_READS
    · rw [if_pos hlt]
      have hlt2 : cnt < 30000 := by simpa [TOY_MAX_READS] using hlt
      rw [ih (cnt + 1) (idx + 2) (by omega) (by omega)]
      have harith : 30000 + 1 - (cnt + 1) + 1 = 30000 + 1 - cnt := by omega
      simp only [harith]
    · rw [if_neg hlt]
      have hq : cnt = 30000 := by
        simp only [TOY_MAX_READS] at hlt
        omega
      subst hq
      norm_num

/-- Helper: the stabilized read against a constant-seconds chip, with both
pre-checks passing, returns after `TOY_MAX_READS + 1` comparisons with the
not-running error. -/
theorem readUpdateStab_const (b mon : ℕ) (hm : mon &&& 0xE0 = 0)
    (hh : b &&& 0x80 = 0) :
    readUpdateStab (fun _ => b) mon = (TOY_MAX_READS + 1, .error .DeviceNotRunning) := by
  rw [readUpdateStab, if_neg (by simp [hm]), if_neg (by simp [hh])]
  rw [stabLoopAux_const b (TOY_MAX_READS + 2) 0 1 (by norm_num) (by norm_num)]
  norm_num

/-- C6 counterexample: against a chip stuck at seconds byte `0x25` (halt
clear, month sentinel clear), the loop performs `TOY_MAX_READS + 1 =
30001` seconds comparisons, not the claimed configured bound of 30000. -/
theorem stuckChip_comparisons_counterexample :
    readUpdateStab (fun _ => 0x25) 0x01 =
      (TOY_MAX_READS + 1, .error .DeviceNotRunning) ∧
    TOY_MAX_READS + 1 ≠ TOY_MAX_READS :=
  ⟨readUpdateStab_const 0x25 0x01 (by decide) (by decide),
   by norm_num [TOY_MAX_READS]⟩

/-- C6 (amended): against a chip whose seconds register never changes
between consecutive burst reads, with the device-present and halt checks
passing, the stabilized read terminates, performs exactly
`TOY_MAX_READS + 1 = 30001` comparison attempts (one more than the
configured bound, as the post-increment do-while runs the body for counter
values 0 through 30000), and fails with `DeviceNotRunning`. -/
theorem stuckChip_notRunning (b mon : ℕ) (hm : mon &&& 0xE0 = 0)
    (hh : b &&& 0x80 = 0) :
    readUpdateStab (fun _ => b) mon = (TOY_MAX_READS + 1, .error .DeviceNotRunning) :=
  readUpdateStab_const b mon hm hh

/-- Witness for `stuckChip_notRunning` at seconds byte `0x25`, month byte
`0x01`. -/
theorem stuckChip_notRunning_witness :
    readUpdateStab (fun _ => 0x25) 0x01 = (TOY_MAX_READS + 1, .error .DeviceNotRunning) :=
  stuckChip_notRunning 0x25 0x01 (by decide) (by decide)

/-- C9: a RAM burst (`TOY_RBURST`) whose length is outside
`1..TOY_RAM_REGS` (31) is rejected as an internal programming error by
both `writeTOY` and `readTOY` immediately: no pin action is performed. -/
theorem ramBurst_rejected (reg : ℕ) (len : ℤ) (data : List ℕ)
    (hr : reg &&& 0xFF = 0xFE) (hl : len ≤ 0 ∨ len > (TOY_RAM_REGS : ℤ)) :
    writeTOY reg len data = ([], some .ProtocolMisuse) ∧
    readTOY reg len = ([], some .ProtocolMisuse) := by
  constructor
  · rw [writeTOY]
    simp only [hr]
    rw [if_pos ⟨trivial, hl⟩]
  · rw [readTOY]
    simp only [hr]
    rw [if_pos ⟨trivial, hl⟩]

/-- Witness for `ramBurst_rejected`: a gathered RAM write burst and a RAM
read burst of 32 bytes (one beyond capacity). -/
theorem ramBurst_rejected_witness :
    writeTOY 0x1FE 32 [0] = ([], some .ProtocolMisuse) ∧
    readTOY 0x1FE 32 = ([], some .ProtocolMisuse) :=
  ramBurst_rejected 0x1FE 32 [0] (by decide) (Or.inr (by decide))

end RtcCtl
